import Mathlib

/-!
Shallow embedding of `src/bot.py` (a Telegram meme bot): the template
catalog, the three content fetchers (`generate_custom_meme`,
`fetch_random_reddit_image_meme`, `fetch_reddit_video`), and the
conversation handlers (`handle_option`, `handle_category`,
`handle_top_text`, `handle_bottom_text`, `cancel`, `start_command`).

Network I/O is made explicit: each fetcher takes the parsed outcome of its
HTTP call(s) as a parameter (`Except Unit _` / `CaptionNet`), where the
`error` side stands for a transport failure, a non-2xx status raised by
`raise_for_status`, or a malformed response body whose field access raises.
`random.choice` is modelled by an extra natural-number parameter indexing
into the list (reduced mod its length).  Python strings are lists of
characters, so `str` becomes `String` and the Python slicing / case /
affix operations are modelled on `String.data`.
-/

/-- Python `s.lower()` : lower-case every character (ASCII suffices here). -/
def pyLower (s : String) : String := ⟨s.data.map Char.toLower⟩

/-- Python `s[:50]` : the first 50 characters of `s`. -/
def pySlice50 (s : String) : String := ⟨s.data.take 50⟩

/-- Python `s.startswith(p)` : character-wise comparison of the leading segment. -/
def pyStartswith (s p : String) : Bool := s.data.take p.data.length == p.data

/-- Python `s.endswith(p)` : character-wise comparison of the trailing segment. -/
def pyEndswith (s p : String) : Bool := s.data.reverse.take p.data.length == p.data.reverse

/-- `MEME_TEMPLATES` from bot.py: category name to Imgflip template id,
in the source's insertion order. -/
def MEME_TEMPLATES : List (String × String) := [
  ("dark humor", "181913649"),
  ("wholesome", "8072285"),
  ("sarcastic", "61579"),
  ("nerdy", "61532"),
  ("trending", "93895088"),
  ("absurd", "222403160"),
  ("distracted", "112126428"),
  ("drake", "181913649"),
  ("gru", "124822590"),
  ("change my mind", "129242436")]

/-- `ALL_CATEGORIES = list(MEME_TEMPLATES.keys())`. -/
def ALL_CATEGORIES : List String := MEME_TEMPLATES.map Prod.fst

/-- `VIDEO_CATEGORIES`: the only categories offered in video mode. -/
def VIDEO_CATEGORIES : List String := ["dark humor", "distracted"]

/-- Python `MEME_TEMPLATES.get(k)` : first catalog entry with key `k`, else `None`. -/
def templatesGet (k : String) : Option String :=
  (MEME_TEMPLATES.find? (fun p => p.1 == k)).map Prod.snd

/-- Form data of the one captioning POST to `api.imgflip.com/caption_image`
(credentials elided: they come from the environment, not from the logic). -/
structure CaptionRequest where
  template_id : String
  text0 : String
  text1 : String
deriving Repr, DecidableEq

/-- Parsed JSON body of a captioning-service reply: `success` flag, the
`data.url` field when present, and the `error_message` field when present. -/
structure CaptionResponse where
  success : Bool
  url : Option String
  error_message : Option String
deriving Repr, DecidableEq

/-- Outcome of the captioning POST itself: `fail` covers a transport
exception, a non-2xx status (`raise_for_status`), or an unparseable body;
`ok` carries the parsed JSON. -/
inductive CaptionNet where
  | fail
  | ok (resp : CaptionResponse)
deriving Repr, DecidableEq

/-- `generate_custom_meme(category, top_text, bottom_text)` from bot.py.
Returns the string the function returns, paired with the request it sent
(`none` when it returned before any network call).  The Python
`data['data']['url']` access on a success-flagged reply with no url raises
`KeyError`, which the `except` turns into the generic failure string. -/
def generate_custom_meme (category top_text bottom_text : String)
    (net : CaptionNet) : String × Option CaptionRequest :=
  match templatesGet (pyLower category) with
  | none => ("Invalid category selected", none)
  | some template_id =>
    if template_id = "" then ("Invalid category selected", none)
    else
      let req : CaptionRequest := ⟨template_id, top_text, bottom_text⟩
      match net with
      | .fail => ("Failed to create meme. Please try again later.", some req)
      | .ok resp =>
        if resp.success then
          match resp.url with
          | some u => (u, some req)
          | none => ("Failed to create meme. Please try again later.", some req)
        else
          ("API Error: " ++ resp.error_message.getD "Unknown error", some req)

example : generate_custom_meme "Drake" "A" "B" (.ok ⟨true, some "https://i.imgflip.com/x.jpg", none⟩)
    = ("https://i.imgflip.com/x.jpg", some ⟨"181913649", "A", "B"⟩) := by decide

example : generate_custom_meme "drake" "A" "B" (.ok ⟨false, none, some "bad template"⟩)
    = ("API Error: bad template", some ⟨"181913649", "A", "B"⟩) := by decide

example : generate_custom_meme "unicorn" "A" "B" .fail = ("Invalid category selected", none) := by
  decide

/-- Fields of one Reddit listing entry (`post['data']`) that bot.py reads.
`url` models `data.get('url', '')` (default already applied);
`is_video` models `data.get('is_video', False)`;
`media_reddit_video` is `some fb` when `'media' in data`,
`'reddit_video' in data['media']` and the fallback url is `fb` — an entry
whose `media.reddit_video` lacks `fallback_url` would raise `KeyError`
inside the `try`, which is covered by the `Except.error` side of the
listing parameter. -/
structure RedditPost where
  url : String := ""
  is_video : Bool := false
  media_reddit_video : Option String := none
deriving Repr, DecidableEq

/-- Python `random.choice(l)` with the randomness made explicit: index
`r % l.length` of `l` (`none` only on the empty list, on which the real
`random.choice` raises). -/
def random_choice (l : List String) (r : Nat) : Option String := l.get? (r % l.length)

/-- The image-extension list from `fetch_random_reddit_image_meme`. -/
def IMAGE_EXTS : List String := [".jpg", ".jpeg", ".png", ".gif"]

/-- The `valid_posts` loop of `fetch_random_reddit_image_meme`: keep the
`url` of every post whose lower-cased url ends in a static-image extension. -/
def imageValidPosts (posts : List RedditPost) : List String :=
  posts.filterMap (fun post =>
    if IMAGE_EXTS.any (fun ext => pyEndswith (pyLower post.url) ext)
    then some post.url else none)

/-- `fetch_random_reddit_image_meme()` from bot.py.  `listing` is the parsed
`data.children` of the r/memes hot listing, `Except.error ()` standing for a
transport failure / bad status / malformed body; `r` is the randomness fed
to `random.choice`.  Both the failure path and the no-qualifying-post path
fall through to the final `return None`. -/
def fetch_random_reddit_image_meme (listing : Except Unit (List RedditPost))
    (r : Nat) : Option String :=
  match listing with
  | .error _ => none
  | .ok posts =>
    let valid_posts := imageValidPosts posts
    if valid_posts.isEmpty then none else random_choice valid_posts r

/-- `subreddit_map` from `fetch_reddit_video`. -/
def subreddit_map : List (String × List String) := [
  ("dark humor", ["dankvideos", "DarkHumorAndMemes"]),
  ("distracted", ["DistractedVideos", "FunnyVideos"])]

/-- The `valid_posts` loop of `fetch_reddit_video`: a post flagged as video
whose url ends in `.mp4` contributes its url; otherwise a post with an
embedded `media.reddit_video` contributes its fallback url. -/
def videoValidPosts (posts : List RedditPost) : List String :=
  posts.filterMap (fun post =>
    if post.is_video && pyEndswith post.url ".mp4" then some post.url
    else post.media_reddit_video)

/-- The source loop of `fetch_reddit_video`: try each subreddit in order;
a failed or empty source is skipped (the `except` only logs), and the first
source with a non-empty `valid_posts` supplies the `random.choice` pick. -/
def fetchVideoFromSources (sources : List String)
    (net : String → Except Unit (List RedditPost)) (r : Nat) : Option String :=
  match sources with
  | [] => none
  | s :: rest =>
    match net s with
    | .error _ => fetchVideoFromSources rest net r
    | .ok posts =>
      let valid_posts := videoValidPosts posts
      if valid_posts.isEmpty then fetchVideoFromSources rest net r
      else random_choice valid_posts r

/-- `fetch_reddit_video(category)` from bot.py.  `net` gives the parsed
listing of each subreddit (or its transport failure); `r` is the randomness
fed to `random.choice`. -/
def fetch_reddit_video (category : String)
    (net : String → Except Unit (List RedditPost)) (r : Nat) : Option String :=
  fetchVideoFromSources
    (((subreddit_map.find? (fun p => p.1 == category)).map Prod.snd).getD []) net r

/-- `fetch_random_meme(mode, category)` from bot.py. -/
def fetch_random_meme (mode category : String)
    (imageListing : Except Unit (List RedditPost))
    (videoNet : String → Except Unit (List RedditPost)) (r : Nat) : Option String :=
  if mode == "random" then fetch_random_reddit_image_meme imageListing r
  else if mode == "video" then fetch_reddit_video category videoNet r
  else none

example :
    fetch_random_reddit_image_meme
      (.ok [⟨"https://i.redd.it/a.JPG", false, none⟩, ⟨"https://v.redd.it/x", true, none⟩]) 0
      = some "https://i.redd.it/a.JPG" := by decide

example : fetch_random_reddit_image_meme (.error ()) 3 = none := by decide

example :
    fetch_reddit_video "dark humor"
      (fun s => if s == "dankvideos" then .error ()
                else .ok [⟨"https://v.redd.it/b.mp4", true, none⟩]) 0
      = some "https://v.redd.it/b.mp4" := by decide

example : fetch_reddit_video "drake" (fun _ => .ok []) 0 = none := by decide

/-- Conversation states of the `ConversationHandler` in bot.py:
`OPTION, CATEGORY, TOP_TEXT, BOTTOM_TEXT = range(4)` plus
`ConversationHandler.END` (the spec's AWAITING_MODE, AWAITING_CATEGORY,
AWAITING_TOP_TEXT, AWAITING_BOTTOM_TEXT, and the DONE/CANCELLED terminal). -/
inductive ConvState where
  | OPTION
  | CATEGORY
  | TOP_TEXT
  | BOTTOM_TEXT
  | END
deriving Repr, DecidableEq

/-- Position of a state along the dialog, used to express that the state
only moves forward. -/
def stateIdx : ConvState → Nat
  | .OPTION => 0
  | .CATEGORY => 1
  | .TOP_TEXT => 2
  | .BOTTOM_TEXT => 3
  | .END => 4

/-- One outbound action to the messaging transport. -/
inductive OutMsg where
  | text (s : String)
  | keyboard (s : String) (choices : List String)
  | photo (url : String) (caption : String)
  | video (url : String) (caption : String)
deriving Repr, DecidableEq

/-- The `context.user_data` dict of one user: the keys bot.py ever writes.
A `none` field is an absent key; `.clear()` resets every field to `none`. -/
structure UserData where
  mode : Option String := none
  category : Option String := none
  top_text : Option String := none
  bottom_text : Option String := none
deriving Repr, DecidableEq

/-- `start_command`: welcome photo, then the mode keyboard; returns `OPTION`.
It does not touch `user_data`. -/
def start_command : ConvState × List OutMsg :=
  (ConvState.OPTION,
   [OutMsg.photo "https://i.imgur.com/ExdKOOz.png"
      "🎉 Welcome to Meme Bot on Telegram! 🎉\nDeveloped by Jatin (Reg No: 12323852)\nWhat would you like to do?",
    OutMsg.keyboard "Select mode:" ["edit", "random", "video"]])

/-- `handle_option`: record the mode, acknowledge it, and present the
category keyboard — `VIDEO_CATEGORIES` when mode is `"video"`, else
`ALL_CATEGORIES`; returns `CATEGORY`. -/
def handle_option (mode : String) (data : UserData) :
    ConvState × UserData × List OutMsg :=
  let data := { data with mode := some mode }
  let categories := if mode == "video" then VIDEO_CATEGORIES else ALL_CATEGORIES
  (ConvState.CATEGORY, data,
   [OutMsg.text ("Selected " ++ mode ++ " mode!"),
    OutMsg.keyboard "Choose category:" categories])

/-- `handle_category`: record the category; with mode `"edit"` (the default
when no mode is recorded) prompt for top text and return `TOP_TEXT`; with
any other mode call `fetch_random_meme` and finish.  The Python falsiness
test `if not meme_url` holds for `None` and for the empty string.  The last
component reports whether a fetcher was invoked. -/
def handle_category (category : String) (data : UserData)
    (imageListing : Except Unit (List RedditPost))
    (videoNet : String → Except Unit (List RedditPost)) (r : Nat) :
    ConvState × UserData × List OutMsg × Bool :=
  let data := { data with category := some category }
  let mode := data.mode.getD "edit"
  if mode == "edit" then
    (ConvState.TOP_TEXT, data,
     [OutMsg.text ("Selected " ++ category ++ " category!"),
      OutMsg.text "Send TOP TEXT (max 50 characters):"], false)
  else
    let meme_url := fetch_random_meme mode category imageListing videoNet r
    if meme_url.getD "" = "" then
      (ConvState.END, data,
       [OutMsg.text ("⚠️ Couldn't find a " ++ mode ++ " meme for " ++ category
          ++ ".\nTry another category!")], true)
    else
      let u := meme_url.getD ""
      if mode == "video" then
        (ConvState.END, data,
         [OutMsg.video u ("Here's your " ++ category ++ " video meme! 🎬"),
          OutMsg.text "Type /start to make more memes!"], true)
      else
        (ConvState.END, data,
         [OutMsg.photo u ("Here's your " ++ category ++ " random meme! 🎲"),
          OutMsg.text "Type /start to make more memes!"], true)

/-- `handle_top_text`: store the first 50 characters of the message as
`top_text`, prompt for bottom text, return `BOTTOM_TEXT`. -/
def handle_top_text (text : String) (data : UserData) :
    ConvState × UserData × List OutMsg :=
  (ConvState.BOTTOM_TEXT, { data with top_text := some (pySlice50 text) },
   [OutMsg.text "Now send BOTTOM TEXT (max 50 characters):"])

/-- `handle_bottom_text`: store the first 50 characters as `bottom_text`,
call `generate_custom_meme` with the stored category and top text, send the
result as a photo when it starts with `"http"` and as plain text otherwise,
then finish.  The dict accesses `user_data["category"]` and
`user_data["top_text"]` raise `KeyError` when absent, so the result is
`none` in that case (the exception escapes to the global error handler). -/
def handle_bottom_text (text : String) (data : UserData) (net : CaptionNet) :
    Option (ConvState × UserData × List OutMsg) :=
  let bottom_text := pySlice50 text
  let data := { data with bottom_text := some bottom_text }
  match data.category, data.top_text with
  | some category, some top =>
    let meme_url := (generate_custom_meme category top bottom_text net).1
    let msgs :=
      if pyStartswith meme_url "http"
      then [OutMsg.photo meme_url "Here's your custom meme! 🎨"]
      else [OutMsg.text meme_url]
    some (ConvState.END, data, msgs ++ [OutMsg.text "Type /start to create another!"])
  | _, _ => none

/-- `cancel`: acknowledge, `user_data.clear()`, end the conversation. -/
def cancel (_data : UserData) : ConvState × UserData × List OutMsg :=
  (ConvState.END, {},
   [OutMsg.text "Operation cancelled. Type /start to begin again!"])

/-- One inbound event, as dispatched by the `ConversationHandler`. -/
inductive Event where
  | startCmd
  | cancelCmd
  | callback (payload : String)
  | message (text : String)
deriving Repr, DecidableEq

/-- The external world a dialog step may consult: the captioning POST, the
r/memes listing, the per-subreddit video listings, and the randomness. -/
structure Env where
  captionNet : CaptionNet
  imageListing : Except Unit (List RedditPost)
  videoNet : String → Except Unit (List RedditPost)
  r : Nat

/-- One step of the `ConversationHandler` table in `main`: `/start` is the
entry point and, via `allow_reentry=True`, restarts from any state;
`/cancel` is a fallback of every active state; the four states dispatch to
their handlers; anything else is not matched and is ignored.  An exception
inside `handle_bottom_text` (the `none` case) leaves the conversation state
unchanged. -/
def stepConv (s : ConvState) (e : Event) (data : UserData) (env : Env) :
    ConvState × UserData × List OutMsg :=
  match e with
  | .startCmd => (start_command.1, data, start_command.2)
  | .cancelCmd =>
    match s with
    | .END => (ConvState.END, data, [])
    | _ => cancel data
  | .callback payload =>
    match s with
    | .OPTION => handle_option payload data
    | .CATEGORY =>
      let out := handle_category payload data env.imageListing env.videoNet env.r
      (out.1, out.2.1, out.2.2.1)
    | _ => (s, data, [])
  | .message text =>
    match s with
    | .TOP_TEXT => handle_top_text text data
    | .BOTTOM_TEXT =>
      match handle_bottom_text text data env.captionNet with
      | some out => out
      | none => (s, data, [])
    | _ => (s, data, [])

/-- The sequence of states visited while consuming a list of events
(initial state included). -/
def runConv : ConvState → UserData → Env → List Event → List ConvState
  | s, _, _, [] => [s]
  | s, d, env, e :: es =>
    let out := stepConv s e d env
    s :: runConv out.1 out.2.1 env es

/-- Concrete two-source scenario for the video fetcher: the first source
fails with a transport error, the second returns one qualifying mp4 post. -/
def firstFailsNet : String → Except Unit (List RedditPost) :=
  fun s => if s == "dankvideos" then Except.error ()
           else Except.ok [{ url := "https://v.redd.it/b.mp4", is_video := true }]

/-! Helper lemmas about the template catalog lookup. -/

theorem templatesGet_eq_none (k : String)
    (h : ∀ p ∈ MEME_TEMPLATES, p.1 ≠ k) : templatesGet k = none := by
  unfold templatesGet
  rw [List.find?_eq_none.mpr]
  · rfl
  · intro p hp
    simpa using h p hp

theorem templatesGet_ne_empty (k tid : String) (h : templatesGet k = some tid) :
    tid ≠ "" := by
  unfold templatesGet at h
  obtain ⟨p, hfind, rfl⟩ :
      ∃ p, MEME_TEMPLATES.find? (fun p => p.1 == k) = some p ∧ p.2 = tid := by
    cases hf : MEME_TEMPLATES.find? (fun p => p.1 == k) with
    | none => simp [hf] at h
    | some p => exact ⟨p, rfl, by simpa [hf] using h⟩
  have hmem := List.mem_of_find?_eq_some hfind
  have hall : ∀ p ∈ MEME_TEMPLATES, p.2 ≠ "" := by decide
  exact hall _ hmem

/-- The generic caption-failure string never starts with `"http"`, so
`handle_bottom_text` always treats an `"API Error: ..."` result as text. -/
theorem api_error_not_http (m : String) :
    pyStartswith ("API Error: " ++ m) "http" = false := by
  obtain ⟨l⟩ := m
  rfl

/-- C2: for every category string not present in the template catalog under
case-insensitive lookup, `generate_custom_meme` returns the
`"Invalid category selected"` outcome and issues no captioning request. -/
theorem C2_invalid_category_no_request (category top bottom : String) (net : CaptionNet)
    (h : ∀ p ∈ MEME_TEMPLATES, p.1 ≠ pyLower category) :
    generate_custom_meme category top bottom net = ("Invalid category selected", none) := by
  have hnone := templatesGet_eq_none (pyLower category) h
  simp [generate_custom_meme, hnone]

theorem C2_witness :
    (∀ p ∈ MEME_TEMPLATES, p.1 ≠ pyLower "Unicorn") ∧
    generate_custom_meme "Unicorn" "A" "B" CaptionNet.fail
      = ("Invalid category selected", none) :=
  ⟨by decide, C2_invalid_category_no_request "Unicorn" "A" "B" CaptionNet.fail (by decide)⟩

/-- C3: a free-text input longer than 50 characters received in the
top-text step is stored as exactly its first 50 characters (a 50-character
prefix of the input); the bottom-text step stores the first 50 characters
of its input the same way; and `generate_custom_meme` forwards both text
fields to the service exactly as given, with no re-truncation. -/
theorem C3_truncate_50 (text : String) (data : UserData) (h : 50 < text.length) :
    ((handle_top_text text data).2.1.top_text = some (pySlice50 text)
      ∧ (pySlice50 text).length = 50
      ∧ (pySlice50 text).data ++ text.data.drop 50 = text.data)
    ∧ (∀ tb : String, ∀ dataB : UserData, ∀ net out,
        handle_bottom_text tb dataB net = some out →
        out.2.1.bottom_text = some (pySlice50 tb))
    ∧ (∀ category tid top bottom : String, ∀ net : CaptionNet,
        templatesGet (pyLower category) = some tid →
        (generate_custom_meme category top bottom net).2
          = some ⟨tid, top, bottom⟩) := by
  refine ⟨⟨rfl, ?_, ?_⟩, ?_, ?_⟩
  · show (text.data.take 50).length = 50
    have hlen : text.length = text.data.length := rfl
    rw [List.length_take]
    omega
  · exact List.take_append_drop 50 text.data
  · intro tb dataB net out hout
    unfold handle_bottom_text at hout
    cases hc : dataB.category <;> cases ht : dataB.top_text <;>
      simp [hc, ht] at hout
    rw [← hout]
  · intro category tid top bottom net htid
    have hne := templatesGet_ne_empty _ _ htid
    cases net with
    | fail => simp [generate_custom_meme, htid, hne]
    | ok resp =>
      cases hs : resp.success <;> cases hu : resp.url <;>
        simp [generate_custom_meme, htid, hne, hs, hu]

theorem C3_witness :
    50 < ("aaaaaaaaaaaaaaaaaaaaaaaaaaaaaaaaaaaaaaaaaaaaaaaaaaZ").length
    ∧ (handle_top_text "aaaaaaaaaaaaaaaaaaaaaaaaaaaaaaaaaaaaaaaaaaaaaaaaaaZ" {}).2.1.top_text
        = some (pySlice50 "aaaaaaaaaaaaaaaaaaaaaaaaaaaaaaaaaaaaaaaaaaaaaaaaaaZ")
    ∧ (pySlice50 "aaaaaaaaaaaaaaaaaaaaaaaaaaaaaaaaaaaaaaaaaaaaaaaaaaZ").length = 50 :=
  ⟨by decide,
   (C3_truncate_50 "aaaaaaaaaaaaaaaaaaaaaaaaaaaaaaaaaaaaaaaaaaaaaaaaaaZ" {} (by decide)).1.1,
   (C3_truncate_50 "aaaaaaaaaaaaaaaaaaaaaaaaaaaaaaaaaaaaaaaaaaaaaaaaaaZ" {} (by decide)).1.2.1⟩

/-- C7: on a mode selection the engine moves to the category step and
presents exactly `VIDEO_CATEGORIES` when the selected mode is `"video"`
and exactly the full catalog's `ALL_CATEGORIES` for any other mode; the
video-eligible set is contained in the catalog's category set. -/
theorem C7_video_subset (mode : String) (data : UserData) :
    (handle_option mode data).1 = ConvState.CATEGORY
    ∧ (handle_option mode data).2.1.mode = some mode
    ∧ (mode = "video" → (handle_option mode data).2.2
        = [OutMsg.text "Selected video mode!",
           OutMsg.keyboard "Choose category:" VIDEO_CATEGORIES])
    ∧ (mode ≠ "video" → (handle_option mode data).2.2
        = [OutMsg.text ("Selected " ++ mode ++ " mode!"),
           OutMsg.keyboard "Choose category:" ALL_CATEGORIES])
    ∧ (∀ c ∈ VIDEO_CATEGORIES, c ∈ ALL_CATEGORIES) := by
  refine ⟨rfl, rfl, ?_, ?_, by decide⟩
  · rintro rfl
    rfl
  · intro hne
    simp [handle_option, hne]

theorem C7_witness :
    (handle_option "video" {}).2.2
      = [OutMsg.text "Selected video mode!",
         OutMsg.keyboard "Choose category:" VIDEO_CATEGORIES] :=
  (C7_video_subset "video" {}).2.2.1 rfl

/-- C10: a category selection processed while the session has no recorded
mode defaults the mode to `"edit"`: the engine records the category,
prompts for top text, moves to the top-text step, and invokes no fetcher. -/
theorem C10_default_mode_edit (category : String) (data : UserData)
    (h : data.mode = none) (imageListing : Except Unit (List RedditPost))
    (videoNet : String → Except Unit (List RedditPost)) (r : Nat) :
    handle_category category data imageListing videoNet r
      = (ConvState.TOP_TEXT, { data with category := some category },
         [OutMsg.text ("Selected " ++ category ++ " category!"),
          OutMsg.text "Send TOP TEXT (max 50 characters):"], false) := by
  simp [handle_category, h]

theorem C10_witness :
    ({} : UserData).mode = none
    ∧ handle_category "drake" {} (Except.error ()) (fun _ => Except.error ()) 0
        = (ConvState.TOP_TEXT, { category := some "drake" },
           [OutMsg.text "Selected drake category!",
            OutMsg.text "Send TOP TEXT (max 50 characters):"], false) :=
  ⟨rfl, C10_default_mode_edit "drake" {} rfl (Except.error ()) (fun _ => Except.error ()) 0⟩

/-- C1 counterexample: with the service replying
`success=false, error_message="bad template"` for the in-catalog category
`"drake"`, the string `generate_custom_meme` returns is
`"API Error: bad template"`, which is not the service's exact message
`"bad template"`; the engine then emits that prefixed string — not the
service's exact message — as plain text, so the emitted output never
contains the bare service message. -/
theorem C1_counterexample :
    (generate_custom_meme "drake" "A" "B"
        (.ok ⟨false, none, some "bad template"⟩)).1 = "API Error: bad template"
    ∧ "API Error: bad template" ≠ "bad template"
    ∧ handle_bottom_text "B" ⟨some "edit", some "drake", some "A", none⟩
        (.ok ⟨false, none, some "bad template"⟩)
      = some (ConvState.END, ⟨some "edit", some "drake", some "A", some "B"⟩,
          [OutMsg.text "API Error: bad template",
           OutMsg.text "Type /start to create another!"])
    ∧ OutMsg.text "bad template"
        ∉ [OutMsg.text "API Error: bad template",
           OutMsg.text "Type /start to create another!"] := by
  decide

/-- C1 as amended: when the captioning service returns a well-formed
failure response (`success=false` with an error message `m`),
`generate_custom_meme` returns the service-error string
`"API Error: " ++ m` — carrying the service's own message after a fixed
prefix rather than equalling it — and the engine in the bottom-text step
emits exactly that prefixed string as plain text, never as an image. -/
theorem C1_amended_service_failure_as_text
    (category tid top text m : String) (u : Option String) (data : UserData)
    (h : templatesGet (pyLower category) = some tid)
    (hc : data.category = some category) (ht : data.top_text = some top) :
    generate_custom_meme category top (pySlice50 text)
        (.ok ⟨false, u, some m⟩)
      = ("API Error: " ++ m, some ⟨tid, top, pySlice50 text⟩)
    ∧ handle_bottom_text text data (.ok ⟨false, u, some m⟩)
      = some (ConvState.END, { data with bottom_text := some (pySlice50 text) },
          [OutMsg.text ("API Error: " ++ m),
           OutMsg.text "Type /start to create another!"]) := by
  have hne := templatesGet_ne_empty _ _ h
  have hgen : generate_custom_meme category top (pySlice50 text)
      (.ok ⟨false, u, some m⟩)
      = ("API Error: " ++ m, some ⟨tid, top, pySlice50 text⟩) := by
    simp [generate_custom_meme, h, hne]
  refine ⟨hgen, ?_⟩
  unfold handle_bottom_text
  simp only [hc, ht, hgen, api_error_not_http]
  rfl

theorem C1_amended_witness :
    templatesGet (pyLower "drake") = some "181913649"
    ∧ handle_bottom_text "BB" ⟨some "edit", some "drake", some "AA", none⟩
        (.ok ⟨false, none, some "bad template"⟩)
      = some (ConvState.END, ⟨some "edit", some "drake", some "AA", some "BB"⟩,
          [OutMsg.text "API Error: bad template",
           OutMsg.text "Type /start to create another!"]) :=
  ⟨by decide,
   (C1_amended_service_failure_as_text "drake" "181913649" "AA" "BB" "bad template"
      none ⟨some "edit", some "drake", some "AA", none⟩ (by decide) rfl rfl).2⟩

/-- C8 counterexample: completing an edit dialog (the bottom-text step
returning the terminal state) leaves the recorded mode, category, and
texts in the user's store — the entry is not cleared on reaching the
terminal, contradicting the claim for the DONE terminal. -/
theorem C8_counterexample :
    handle_bottom_text "B" ⟨some "edit", some "gru", some "A", none⟩ CaptionNet.fail
      = some (ConvState.END, ⟨some "edit", some "gru", some "A", some "B"⟩,
          [OutMsg.text "Failed to create meme. Please try again later.",
           OutMsg.text "Type /start to create another!"])
    ∧ (⟨some "edit", some "gru", some "A", some "B"⟩ : UserData) ≠ {} := by
  decide

/-- C8 as amended: cancellation from any session state clears the store
entry entirely (no residual mode, category, or text) and a subsequent
start command begins at the mode-selection state; completing a dialog
(reaching the terminal through the bottom-text step) ends the conversation
but leaves the recorded mode, category, and top text in the store. -/
theorem C8_amended_cancel_clears (data : UserData) :
    cancel data = (ConvState.END, {},
      [OutMsg.text "Operation cancelled. Type /start to begin again!"])
    ∧ ({} : UserData).mode = none ∧ ({} : UserData).category = none
    ∧ ({} : UserData).top_text = none ∧ ({} : UserData).bottom_text = none
    ∧ start_command.1 = ConvState.OPTION
    ∧ (∀ text net out, handle_bottom_text text data net = some out →
        out.1 = ConvState.END ∧ out.2.1.mode = data.mode
          ∧ out.2.1.category = data.category ∧ out.2.1.top_text = data.top_text) := by
  refine ⟨rfl, rfl, rfl, rfl, rfl, rfl, ?_⟩
  intro text net out hout
  unfold handle_bottom_text at hout
  cases hc : data.category <;> cases ht : data.top_text <;> simp [hc, ht] at hout
  rw [← hout]
  exact ⟨rfl, rfl, rfl, rfl⟩

theorem C8_amended_witness :
    cancel ⟨some "edit", some "gru", some "A", none⟩
      = (ConvState.END, {},
         [OutMsg.text "Operation cancelled. Type /start to begin again!"])
    ∧ (∀ text net out,
        handle_bottom_text text ⟨some "edit", some "gru", some "A", none⟩ net = some out →
        out.1 = ConvState.END ∧ out.2.1.mode = some "edit"
          ∧ out.2.1.category = some "gru" ∧ out.2.1.top_text = some "A") :=
  ⟨(C8_amended_cancel_clears ⟨some "edit", some "gru", some "A", none⟩).1,
   (C8_amended_cancel_clears ⟨some "edit", some "gru", some "A", none⟩).2.2.2.2.2.2⟩

/-- Whenever the list is non-empty, the modelled `random.choice` yields a
member of the list. -/
theorem random_choice_mem (l : List String) (r : Nat) (h : l ≠ []) :
    ∃ u ∈ l, random_choice l r = some u := by
  have hlen : 0 < l.length := List.length_pos.mpr h
  have hmod : r % l.length < l.length := Nat.mod_lt _ hlen
  rw [random_choice, List.get?_eq_get hmod]
  exact ⟨l.get ⟨r % l.length, hmod⟩, List.get_mem _ _ _, rfl⟩

/-- When every source either fails or filters to nothing, the video source
loop returns the empty outcome. -/
theorem fetchVideoFromSources_exhausted (sources : List String)
    (net : String → Except Unit (List RedditPost)) (r : Nat)
    (h : ∀ s ∈ sources, net s = Except.error ()
        ∨ ∃ ps, net s = Except.ok ps ∧ videoValidPosts ps = []) :
    fetchVideoFromSources sources net r = none := by
  induction sources with
  | nil => rfl
  | cons s rest ih =>
    have hrest : fetchVideoFromSources rest net r = none :=
      ih (fun t ht => h t (List.mem_cons_of_mem _ ht))
    rcases h s (List.mem_cons_self _ _) with he | ⟨ps, hps, hemp⟩
    · simp [fetchVideoFromSources, he, hrest]
    · simp [fetchVideoFromSources, hps, hemp, hrest]

/-- Conversely, an empty outcome of the video source loop means every
source failed or filtered to nothing. -/
theorem fetchVideoFromSources_none (sources : List String)
    (net : String → Except Unit (List RedditPost)) (r : Nat)
    (h : fetchVideoFromSources sources net r = none) :
    ∀ s ∈ sources, net s = Except.error ()
      ∨ ∃ ps, net s = Except.ok ps ∧ videoValidPosts ps = [] := by
  induction sources with
  | nil => simp
  | cons s rest ih =>
    intro t ht
    cases hn : net s with
    | error e =>
      rcases List.mem_cons.mp ht with rfl | htr
      · left
        rw [hn]
      · exact ih (by simpa [fetchVideoFromSources, hn] using h) t htr
    | ok ps =>
      by_cases hemp : videoValidPosts ps = []
      · rcases List.mem_cons.mp ht with rfl | htr
        · exact Or.inr ⟨ps, hn, hemp⟩
        · refine ih ?_ t htr
          simpa [fetchVideoFromSources, hn, hemp] using h
      · exfalso
        obtain ⟨u, _, hu⟩ := random_choice_mem (videoValidPosts ps) r hemp
        rw [fetchVideoFromSources, hn] at h
        simp only [List.isEmpty_eq_true, hemp, if_false] at h
        rw [h] at hu
        cases hu

/-- C4: the image fetch filters the listing to exactly the entries whose
url ends (case-insensitively) in `.jpg`, `.jpeg`, `.png` or `.gif`; when
that filtered list is non-empty the result is the member selected by the
randomness index (and it is always some member of the filtered list); when
the filtered list is empty the result is the empty outcome (the `None`
that plays the spec's NotFound on a successfully fetched listing). -/
theorem C4_image_filter_random_pick (posts : List RedditPost) (r : Nat) :
    (∀ u, u ∈ imageValidPosts posts ↔
        ∃ post ∈ posts, post.url = u
          ∧ ∃ ext ∈ IMAGE_EXTS, pyEndswith (pyLower u) ext = true)
    ∧ (imageValidPosts posts ≠ [] →
        ∃ u ∈ imageValidPosts posts,
          fetch_random_reddit_image_meme (Except.ok posts) r = some u)
    ∧ (∀ i, i < (imageValidPosts posts).length →
        fetch_random_reddit_image_meme (Except.ok posts) i
          = (imageValidPosts posts).get? i)
    ∧ (imageValidPosts posts = [] →
        fetch_random_reddit_image_meme (Except.ok posts) r = none) := by
  refine ⟨?_, ?_, ?_, ?_⟩
  · intro u
    unfold imageValidPosts
    rw [List.mem_filterMap]
    constructor
    · rintro ⟨post, hmem, hf⟩
      by_cases hcond :
          (IMAGE_EXTS.any fun ext => pyEndswith (pyLower post.url) ext) = true
      · rw [if_pos hcond] at hf
        obtain rfl : post.url = u := by injection hf
        refine ⟨post, hmem, rfl, ?_⟩
        simpa [List.any_eq_true] using hcond
      · rw [if_neg hcond] at hf
        cases hf
    · rintro ⟨post, hmem, rfl, hex⟩
      refine ⟨post, hmem, if_pos ?_⟩
      simpa [List.any_eq_true] using hex
  · intro hne
    obtain ⟨u, hu, hchoice⟩ := random_choice_mem (imageValidPosts posts) r hne
    refine ⟨u, hu, ?_⟩
    rw [fetch_random_reddit_image_meme]
    simp only [List.isEmpty_eq_true, hne, if_false]
    exact hchoice
  · intro i hi
    have hne : imageValidPosts posts ≠ [] := by
      intro hnil
      rw [hnil] at hi
      exact absurd hi (by simp)
    rw [fetch_random_reddit_image_meme]
    simp only [List.isEmpty_eq_true, hne, if_false]
    rw [random_choice, Nat.mod_eq_of_lt hi]
  · intro hemp
    rw [fetch_random_reddit_image_meme]
    simp [hemp]

theorem C4_witness :
    ([⟨"https://i.redd.it/a.JPG", false, none⟩] : List RedditPost) ≠ []
    ∧ imageValidPosts [⟨"https://i.redd.it/a.JPG", false, none⟩] ≠ []
    ∧ ∃ u ∈ imageValidPosts [⟨"https://i.redd.it/a.JPG", false, none⟩],
        fetch_random_reddit_image_meme
          (Except.ok [⟨"https://i.redd.it/a.JPG", false, none⟩]) 7 = some u :=
  ⟨by decide, by decide,
   (C4_image_filter_random_pick [⟨"https://i.redd.it/a.JPG", false, none⟩] 7).2.1
     (by decide)⟩

/-- C5 counterexample: a transport failure and an empty qualifying set
produce the very same `None` outcome in both random-fetch paths — the two
cases are conflated, not distinguishable. -/
theorem C5_counterexample :
    fetch_random_reddit_image_meme (Except.error ()) 0
      = fetch_random_reddit_image_meme (Except.ok []) 0
    ∧ fetch_random_reddit_image_meme (Except.error ()) 0 = none
    ∧ fetch_reddit_video "dark humor" (fun _ => Except.error ()) 0
      = fetch_reddit_video "dark humor" (fun _ => Except.ok []) 0
    ∧ fetch_reddit_video "dark humor" (fun _ => Except.error ()) 0 = none := by
  refine ⟨rfl, rfl, rfl, rfl⟩

/-- C5 as amended: in the random-fetch paths a transport failure yields the
same bare empty outcome (`None`) as the absence of qualifying content —
the source conflates the two cases instead of keeping a `ServiceError`
distinguishable from `NotFound`. -/
theorem C5_amended_conflated_none (r : Nat) (posts : List RedditPost)
    (himg : imageValidPosts posts = [])
    (category : String) (net : String → Except Unit (List RedditPost))
    (hvid : ∀ s ∈ (((subreddit_map.find? (fun p => p.1 == category)).map
        Prod.snd).getD []),
        net s = Except.error ()
          ∨ ∃ ps, net s = Except.ok ps ∧ videoValidPosts ps = []) :
    fetch_random_reddit_image_meme (Except.error ()) r = none
    ∧ fetch_random_reddit_image_meme (Except.ok posts) r = none
    ∧ fetch_reddit_video category (fun _ => Except.error ()) r = none
    ∧ fetch_reddit_video category net r = none := by
  refine ⟨rfl, ?_, ?_, ?_⟩
  · rw [fetch_random_reddit_image_meme]
    simp [himg]
  · exact fetchVideoFromSources_exhausted _ _ _ (fun s _ => Or.inl rfl)
  · exact fetchVideoFromSources_exhausted _ _ _ hvid

theorem C5_amended_witness :
    imageValidPosts [⟨"https://v.redd.it/x", true, none⟩] = []
    ∧ fetch_random_reddit_image_meme
        (Except.ok [⟨"https://v.redd.it/x", true, none⟩]) 4 = none
    ∧ fetch_reddit_video "dark humor" (fun _ => Except.ok []) 4 = none :=
  ⟨by decide,
   (C5_amended_conflated_none 4 [⟨"https://v.redd.it/x", true, none⟩] (by decide)
      "dark humor" (fun _ => Except.ok [])
      (fun s _ => Or.inr ⟨[], rfl, rfl⟩)).2.1,
   (C5_amended_conflated_none 4 [⟨"https://v.redd.it/x", true, none⟩] (by decide)
      "dark humor" (fun _ => Except.ok [])
      (fun s _ => Or.inr ⟨[], rfl, rfl⟩)).2.2.2⟩

/-- C6: the video fetch walks the category's fallback sources in order — a
source that fails with a transport error, or whose listing filters to
nothing, is skipped and iteration continues; the first source with a
non-empty filtered listing supplies the randomness-indexed pick (always a
member of that listing, and every index is reachable); the empty outcome
occurs exactly when every source is exhausted without a qualifying item;
and the two video categories map to their ordered source pairs. -/
theorem C6_video_fallback (net : String → Except Unit (List RedditPost)) (r : Nat) :
    (∀ s rest, net s = Except.error () →
        fetchVideoFromSources (s :: rest) net r = fetchVideoFromSources rest net r)
    ∧ (∀ s rest ps, net s = Except.ok ps → videoValidPosts ps = [] →
        fetchVideoFromSources (s :: rest) net r = fetchVideoFromSources rest net r)
    ∧ (∀ s rest ps, net s = Except.ok ps → videoValidPosts ps ≠ [] →
        ∃ u ∈ videoValidPosts ps, fetchVideoFromSources (s :: rest) net r = some u)
    ∧ (∀ s rest ps i, net s = Except.ok ps → i < (videoValidPosts ps).length →
        fetchVideoFromSources (s :: rest) net i = (videoValidPosts ps).get? i)
    ∧ (∀ sources, (∀ s ∈ sources, net s = Except.error ()
          ∨ ∃ ps, net s = Except.ok ps ∧ videoValidPosts ps = []) →
        fetchVideoFromSources sources net r = none)
    ∧ (∀ sources, fetchVideoFromSources sources net r = none →
        ∀ s ∈ sources, net s = Except.error ()
          ∨ ∃ ps, net s = Except.ok ps ∧ videoValidPosts ps = [])
    ∧ fetch_reddit_video "dark humor" net r
        = fetchVideoFromSources ["dankvideos", "DarkHumorAndMemes"] net r
    ∧ fetch_reddit_video "distracted" net r
        = fetchVideoFromSources ["DistractedVideos", "FunnyVideos"] net r := by
  refine ⟨?_, ?_, ?_, ?_,
    fun sources h => fetchVideoFromSources_exhausted sources net r h,
    fun sources h => fetchVideoFromSources_none sources net r h, rfl, rfl⟩
  · intro s rest he
    rw [fetchVideoFromSources, he]
  · intro s rest ps hps hemp
    rw [fetchVideoFromSources, hps]
    simp [hemp]
  · intro s rest ps hps hne
    obtain ⟨u, hu, hchoice⟩ := random_choice_mem (videoValidPosts ps) r hne
    refine ⟨u, hu, ?_⟩
    rw [fetchVideoFromSources, hps]
    simp only [List.isEmpty_eq_true, hne, if_false]
    exact hchoice
  · intro s rest ps i hps hi
    have hne : videoValidPosts ps ≠ [] := by
      intro hnil
      rw [hnil] at hi
      exact absurd hi (by simp)
    rw [fetchVideoFromSources, hps]
    simp only [List.isEmpty_eq_true, hne, if_false]
    rw [random_choice, Nat.mod_eq_of_lt hi]

theorem C6_witness :
    firstFailsNet "dankvideos" = Except.error ()
    ∧ fetchVideoFromSources ["dankvideos", "DarkHumorAndMemes"] firstFailsNet 0
        = fetchVideoFromSources ["DarkHumorAndMemes"] firstFailsNet 0
    ∧ fetch_reddit_video "dark humor" firstFailsNet 0
        = some "https://v.redd.it/b.mp4" :=
  ⟨rfl,
   (C6_video_fallback firstFailsNet 0).1 "dankvideos" ["DarkHumorAndMemes"] rfl,
   by decide⟩

/-- With the recorded mode `"edit"` (or defaulted to it), a category
selection moves to the top-text state. -/
theorem handle_category_edit_state (category : String) (data : UserData)
    (il : Except Unit (List RedditPost))
    (vn : String → Except Unit (List RedditPost)) (r : Nat)
    (h : data.mode.getD "edit" = "edit") :
    (handle_category category data il vn r).1 = ConvState.TOP_TEXT := by
  unfold handle_category
  dsimp only
  rw [if_pos]
  exact beq_iff_eq.mpr h

/-- With any recorded mode other than `"edit"`, a category selection ends
the conversation (whatever the fetch returns). -/
theorem handle_category_fetch_state (category : String) (data : UserData)
    (il : Except Unit (List RedditPost))
    (vn : String → Except Unit (List RedditPost)) (r : Nat)
    (h : data.mode.getD "edit" ≠ "edit") :
    (handle_category category data il vn r).1 = ConvState.END := by
  unfold handle_category
  dsimp only
  rw [if_neg]
  · split
    · rfl
    · split <;> rfl
  · simp [h]

/-- When `handle_bottom_text` returns normally it always ends the
conversation. -/
theorem handle_bottom_text_state (t : String) (d : UserData) (net : CaptionNet)
    (out : ConvState × UserData × List OutMsg)
    (h : handle_bottom_text t d net = some out) : out.1 = ConvState.END := by
  unfold handle_bottom_text at h
  cases hc : d.category <;> cases ht : d.top_text <;> simp [hc, ht] at h
  rw [← h]

/-- C9: starting a fresh dialog, an edit-mode run visits exactly the state
sequence OPTION, CATEGORY, TOP_TEXT, BOTTOM_TEXT, END, and a random- or
video-mode run visits exactly OPTION, CATEGORY, END; moreover no other
order is reachable: every non-start event moves the state weakly forward
(so within a dialog the state never regresses; only the re-entrant start
command resets it), and each active state has the unique successor the
sequence prescribes. -/
theorem C9_state_sequences (env : Env) (c t1 t2 : String) :
    runConv ConvState.OPTION {} env
        [Event.callback "edit", Event.callback c, Event.message t1, Event.message t2]
      = [ConvState.OPTION, ConvState.CATEGORY, ConvState.TOP_TEXT,
         ConvState.BOTTOM_TEXT, ConvState.END]
    ∧ (∀ m, m = "random" ∨ m = "video" →
        runConv ConvState.OPTION {} env [Event.callback m, Event.callback c]
          = [ConvState.OPTION, ConvState.CATEGORY, ConvState.END])
    ∧ (∀ s e d, e ≠ Event.startCmd →
        stateIdx s ≤ stateIdx (stepConv s e d env).1)
    ∧ (∀ d p, (stepConv ConvState.OPTION (Event.callback p) d env).1
        = ConvState.CATEGORY)
    ∧ (∀ d p, d.mode = some "edit" →
        (stepConv ConvState.CATEGORY (Event.callback p) d env).1
          = ConvState.TOP_TEXT)
    ∧ (∀ d p, d.mode = some "random" ∨ d.mode = some "video" →
        (stepConv ConvState.CATEGORY (Event.callback p) d env).1 = ConvState.END)
    ∧ (∀ d t, (stepConv ConvState.TOP_TEXT (Event.message t) d env).1
        = ConvState.BOTTOM_TEXT)
    ∧ (∀ d t out, handle_bottom_text t d env.captionNet = some out →
        (stepConv ConvState.BOTTOM_TEXT (Event.message t) d env).1
          = ConvState.END) := by
  refine ⟨?_, ?_, ?_, ?_, ?_, ?_, ?_, ?_⟩
  · rfl
  · rintro m (rfl | rfl)
    · have h2 : (stepConv ConvState.CATEGORY (Event.callback c)
          ⟨some "random", none, none, none⟩ env).1 = ConvState.END :=
        handle_category_fetch_state c ⟨some "random", none, none, none⟩
          env.imageListing env.videoNet env.r (by decide)
      calc runConv ConvState.OPTION {} env [Event.callback "random", Event.callback c]
          = ConvState.OPTION :: ConvState.CATEGORY ::
              [(stepConv ConvState.CATEGORY (Event.callback c)
                 ⟨some "random", none, none, none⟩ env).1] := rfl
        _ = [ConvState.OPTION, ConvState.CATEGORY, ConvState.END] := by rw [h2]
    · have h2 : (stepConv ConvState.CATEGORY (Event.callback c)
          ⟨some "video", none, none, none⟩ env).1 = ConvState.END :=
        handle_category_fetch_state c ⟨some "video", none, none, none⟩
          env.imageListing env.videoNet env.r (by decide)
      calc runConv ConvState.OPTION {} env [Event.callback "video", Event.callback c]
          = ConvState.OPTION :: ConvState.CATEGORY ::
              [(stepConv ConvState.CATEGORY (Event.callback c)
                 ⟨some "video", none, none, none⟩ env).1] := rfl
        _ = [ConvState.OPTION, ConvState.CATEGORY, ConvState.END] := by rw [h2]
  · intro s e d he
    cases e with
    | startCmd => exact absurd rfl he
    | cancelCmd => cases s <;> simp [stepConv, cancel, stateIdx]
    | callback p =>
      cases s with
      | OPTION => simp [stepConv, handle_option, stateIdx]
      | CATEGORY =>
        by_cases hm : d.mode.getD "edit" = "edit"
        · have hst := handle_category_edit_state p d env.imageListing env.videoNet env.r hm
          simp [stepConv, hst, stateIdx]
        · have hst := handle_category_fetch_state p d env.imageListing env.videoNet env.r hm
          simp [stepConv, hst, stateIdx]
      | TOP_TEXT => simp [stepConv, stateIdx]
      | BOTTOM_TEXT => simp [stepConv, stateIdx]
      | END => simp [stepConv, stateIdx]
    | message t =>
      cases s with
      | OPTION => simp [stepConv, stateIdx]
      | CATEGORY => simp [stepConv, stateIdx]
      | TOP_TEXT => simp [stepConv, handle_top_text, stateIdx]
      | BOTTOM_TEXT =>
        cases hb : handle_bottom_text t d env.captionNet with
        | none => simp [stepConv, hb, stateIdx]
        | some out =>
          have hE := handle_bottom_text_state t d env.captionNet out hb
          simp [stepConv, hb, hE, stateIdx]
      | END => simp [stepConv, stateIdx]
  · intro d p
    rfl
  · intro d p h
    exact handle_category_edit_state p d env.imageListing env.videoNet env.r
      (by rw [h]; rfl)
  · intro d p h
    refine handle_category_fetch_state p d env.imageListing env.videoNet env.r ?_
    rcases h with h | h <;> rw [h] <;> decide
  · intro d t
    rfl
  · intro d t out h
    show (match handle_bottom_text t d env.captionNet with
          | some out => out
          | none => (ConvState.BOTTOM_TEXT, d, [])).1 = ConvState.END
    rw [h]
    exact handle_bottom_text_state t d env.captionNet out h

theorem C9_witness :
    runConv ConvState.OPTION {}
        ⟨CaptionNet.fail, Except.error (), fun _ => Except.error (), 0⟩
        [Event.callback "random", Event.callback "drake"]
      = [ConvState.OPTION, ConvState.CATEGORY, ConvState.END] :=
  (C9_state_sequences
      ⟨CaptionNet.fail, Except.error (), fun _ => Except.error (), 0⟩
      "drake" "A" "B").2.1 "random" (Or.inl rfl)
